import Mathlib

/-!
Shallow embedding of the CRUD / dashboard / chat-wrapper code of the
repository (Streamlit pages `1_Cyber Security.py`, `1_Data_Science.py`,
`1_IT.py`, and `DATA/generate_tickets.py`).

A pandas DataFrame is modelled as a list of column names together with a
list of index-labelled rows; a row is an association list from column
name to cell value, a missing association denoting a NaN cell (pandas
materialises the NaN, the association list leaves it implicit: the cell
read `cellOf` returns `Value.nan` for it).  Fallible pandas operations
(column indexing on a missing column, `Series.max` on mixed types,
`value + 1` on a non-numeric value) return `Except Unit`, the `.error`
case standing for a raised Python exception.
-/

/-- A pandas cell value: int64 (carried as an `Int`; the arithmetic the
code performs on it wraps through `wrap64`), object/string, datetime
(seconds), or NaN. -/
inductive Value where
  | int : Int → Value
  | str : String → Value
  | time : Nat → Value
  | nan : Value
deriving DecidableEq

/-- Pandas elementwise equality `==`: NaN compares unequal to everything,
including itself; values of different kinds compare unequal. -/
def pdEq (a b : Value) : Bool :=
  match a, b with
  | .nan, _ => false
  | _, .nan => false
  | a, b => a == b

/-- A row: association list column-name ↦ cell value (missing key = NaN). -/
abbrev Row := List (String × Value)

/-- Reading a cell of a row: the stored value, or NaN when the row has no
entry for that column. -/
def cellOf (r : Row) (c : String) : Value :=
  match r.find? (fun kv => kv.1 == c) with
  | some kv => kv.2
  | none => .nan

/-- Writing a cell of a row (used by `.loc[idx, key] = value`). -/
def rowSet (r : Row) (c : String) (v : Value) : Row :=
  if r.any (fun kv => kv.1 == c) then
    r.map (fun kv => if kv.1 == c then (c, v) else kv)
  else
    r ++ [(c, v)]

/-- A pandas DataFrame: its column names in order, and its rows, each
carried with its integer index label. -/
structure DataFrame where
  cols : List String
  rows : List (Nat × Row)
deriving DecidableEq

/-- Column union as `pd.concat` produces it: the first frame's columns,
then the second frame's columns not already present. -/
def unionCols (a b : List String) : List String :=
  a ++ b.filter (fun c => !a.contains c)

/-- `Series.max` via Python's pairwise max: ints and strings compare
within their kind, comparing across kinds raises (`TypeError`). -/
def valueMaxPair (a b : Value) : Except Unit Value :=
  match a, b with
  | .int x, .int y => .ok (.int (max x y))
  | .str x, .str y => .ok (.str (max x y))
  | .time x, .time y => .ok (.time (max x y))
  | _, _ => .error ()

/-- `Series.max()`: skips NaN, folds the pairwise max; the max of an
all-NaN (or empty) series is NaN. -/
def seriesMax (vs : List Value) : Except Unit Value :=
  match vs.filter (fun v => v != .nan) with
  | [] => .ok .nan
  | v :: rest => rest.foldlM valueMaxPair v

/-- Signed 64-bit wrap-around: the int64 with the same low 64 bits
(numpy integer arithmetic overflows silently, `2^63 - 1 + 1 = -2^63`). -/
def wrap64 (n : Int) : Int :=
  (n + 2 ^ 63) % 2 ^ 64 - 2 ^ 63

/-- `value + 1`: defined on int64 (NaN + 1 = NaN), wrapping at the
int64 boundary as `np.int64` addition does; adding an int to a string
or a Timestamp raises. -/
def valuePlusOne (v : Value) : Except Unit Value :=
  match v with
  | .int n => .ok (.int (wrap64 (n + 1)))
  | .nan => .ok .nan
  | _ => .error ()

/-- The ids column of a frame, as `df['id']` reads it (NaN for a row
without the entry). -/
def idsOf (df : DataFrame) : List Value :=
  df.rows.map (fun r => cellOf r.2 "id")

/-- The `new_data` dict the create forms submit: always exactly the keys
`'title'` and `'severity'`, both strings. -/
structure NewData where
  title : String
  severity : String
deriving DecidableEq

/-! ### The five in-memory CRUD helpers, page `1_Cyber Security.py`

`st.session_state['incidents_df']` is threaded as the explicit `df`
argument and the new state is returned; `st.success`/`st.error` become
the returned success flag; `datetime.now()` is the `now` argument. -/

/-- `get_incident_row` (lines 105–114): `df[df['id'] == incident_id]`
raises `KeyError` when the frame has no `'id'` column. -/
def get_incident_row (df : DataFrame) (incident_id : Option Value) :
    Except Unit (Option Row) :=
  match incident_id with
  | none => .ok none
  | some v =>
    if df.cols.contains "id" then
      .ok (((df.rows.filter (fun r => pdEq (cellOf r.2 "id") v)).head?).map
        Prod.snd)
    else
      .error ()

/-- `handle_add_incident` (lines 118–135): new id is `max + 1` when the
frame is non-empty and has an `'id'` column, else 1000; the new row is
prepended and `ignore_index=True` renumbers the labels (`List.enum`). -/
def handle_add_incident (df : DataFrame) (new_data : NewData) (now : Nat) :
    Except Unit DataFrame :=
  match (if !df.rows.isEmpty && df.cols.contains "id" then
      match seriesMax (idsOf df) with
      | .error e => .error e
      | .ok m => valuePlusOne m
    else
      Except.ok (Value.int 1000)) with
  | .error e => .error e
  | .ok new_id =>
    Except.ok
      ⟨unionCols ["id", "title", "severity", "status", "timestamp"] df.cols,
       ([("id", new_id), ("title", .str new_data.title),
         ("severity", .str new_data.severity), ("status", .str "Open"),
         ("timestamp", .time now)] :: df.rows.map Prod.snd).enum⟩

/-- `.loc[idx_to_update, key] = value`: rows whose label is in `idx` get
the cell set; a key that is not yet a column is appended to the columns
(enlargement), the other rows keeping their implicit NaN there. -/
def locSet (df : DataFrame) (idx : List Nat) (key : String) (v : Value) :
    DataFrame :=
  ⟨if df.cols.contains key then df.cols else df.cols ++ [key],
   df.rows.map (fun lr =>
     if idx.contains lr.1 then (lr.1, rowSet lr.2 key v) else lr)⟩

/-- `handle_update_incident` (lines 137–153): explicit error branch when
`'id'` is missing or no row matches; otherwise each (key, value) of
`updated_data` is written through `.loc` at the matching labels. -/
def handle_update_incident (df : DataFrame) (incident_id : Value)
    (updated_data : List (String × Value)) : DataFrame × Bool :=
  if !df.cols.contains "id" then
    (df, false)
  else
    let idx_to_update :=
      (df.rows.filter (fun r => pdEq (cellOf r.2 "id") incident_id)).map
        Prod.fst
    if !idx_to_update.isEmpty then
      (updated_data.foldl (fun acc kv => locSet acc idx_to_update kv.1 kv.2)
        df, true)
    else
      (df, false)

/-- `handle_delete_incident` (lines 155–171): keeps the rows with
`df['id'] != incident_id` (NaN ids compare unequal, so they are kept),
resets the index, and reports success iff the row count dropped. -/
def handle_delete_incident (df : DataFrame) (incident_id : Value) :
    DataFrame × Bool :=
  if !df.cols.contains "id" then
    (df, false)
  else
    let kept := df.rows.filter (fun r => !pdEq (cellOf r.2 "id") incident_id)
    (⟨df.cols, (kept.map Prod.snd).enum⟩, kept.length < df.rows.length)

/-- `display_dashboard` (lines 176–192), metrics part: nothing on an
empty frame, else (total, open count, critical count), a missing
`'status'`/`'severity'` column giving 0. -/
def display_dashboard (df : DataFrame) : Option (Nat × Nat × Nat) :=
  if df.rows.isEmpty then
    none
  else
    some (df.rows.length,
      if df.cols.contains "status" then
        (df.rows.filter (fun r => pdEq (cellOf r.2 "status") (.str "Open"))).length
      else 0,
      if df.cols.contains "severity" then
        (df.rows.filter (fun r => pdEq (cellOf r.2 "severity") (.str "Critical"))).length
      else 0)

/-! ### The same helpers, page `1_Data_Science.py` (session key
`datasets_df`); the only textual difference in the bodies is the add
fallback id, `1` instead of `1000`. -/

/-- `get_dataset_row` (lines 74–84). -/
def get_dataset_row (df : DataFrame) (dataset_id : Option Value) :
    Except Unit (Option Row) :=
  match dataset_id with
  | none => .ok none
  | some v =>
    if df.cols.contains "id" then
      .ok (((df.rows.filter (fun r => pdEq (cellOf r.2 "id") v)).head?).map
        Prod.snd)
    else
      .error ()

/-- `handle_add_dataset` (lines 88–104): fallback id `1`. -/
def handle_add_dataset (df : DataFrame) (new_data : NewData) (now : Nat) :
    Except Unit DataFrame :=
  match (if !df.rows.isEmpty && df.cols.contains "id" then
      match seriesMax (idsOf df) with
      | .error e => .error e
      | .ok m => valuePlusOne m
    else
      Except.ok (Value.int 1)) with
  | .error e => .error e
  | .ok new_id =>
    Except.ok
      ⟨unionCols ["id", "title", "severity", "status", "timestamp"] df.cols,
       ([("id", new_id), ("title", .str new_data.title),
         ("severity", .str new_data.severity), ("status", .str "Open"),
         ("timestamp", .time now)] :: df.rows.map Prod.snd).enum⟩

/-- `handle_update_dataset` (lines 106–122). -/
def handle_update_dataset (df : DataFrame) (dataset_id : Value)
    (updated_data : List (String × Value)) : DataFrame × Bool :=
  if !df.cols.contains "id" then
    (df, false)
  else
    let idx_to_update :=
      (df.rows.filter (fun r => pdEq (cellOf r.2 "id") dataset_id)).map
        Prod.fst
    if !idx_to_update.isEmpty then
      (updated_data.foldl (fun acc kv => locSet acc idx_to_update kv.1 kv.2)
        df, true)
    else
      (df, false)

/-- `handle_delete_dataset` (lines 124–140). -/
def handle_delete_dataset (df : DataFrame) (dataset_id : Value) :
    DataFrame × Bool :=
  if !df.cols.contains "id" then
    (df, false)
  else
    let kept := df.rows.filter (fun r => !pdEq (cellOf r.2 "id") dataset_id)
    (⟨df.cols, (kept.map Prod.snd).enum⟩, kept.length < df.rows.length)

/-! ### The same helpers, page `1_IT.py` (session key `tickets_df`);
the bodies repeat those of the incidents page verbatim. -/

/-- `get_ticket_row` (lines 95–102). -/
def get_ticket_row (df : DataFrame) (ticket_id : Option Value) :
    Except Unit (Option Row) :=
  match ticket_id with
  | none => .ok none
  | some v =>
    if df.cols.contains "id" then
      .ok (((df.rows.filter (fun r => pdEq (cellOf r.2 "id") v)).head?).map
        Prod.snd)
    else
      .error ()

/-- `handle_add_ticket` (lines 104–121): fallback id `1000`. -/
def handle_add_ticket (df : DataFrame) (new_data : NewData) (now : Nat) :
    Except Unit DataFrame :=
  match (if !df.rows.isEmpty && df.cols.contains "id" then
      match seriesMax (idsOf df) with
      | .error e => .error e
      | .ok m => valuePlusOne m
    else
      Except.ok (Value.int 1000)) with
  | .error e => .error e
  | .ok new_id =>
    Except.ok
      ⟨unionCols ["id", "title", "severity", "status", "timestamp"] df.cols,
       ([("id", new_id), ("title", .str new_data.title),
         ("severity", .str new_data.severity), ("status", .str "Open"),
         ("timestamp", .time now)] :: df.rows.map Prod.snd).enum⟩

/-- `handle_update_ticket` (lines 123–137). -/
def handle_update_ticket (df : DataFrame) (ticket_id : Value)
    (updated_data : List (String × Value)) : DataFrame × Bool :=
  if !df.cols.contains "id" then
    (df, false)
  else
    let idx_to_update :=
      (df.rows.filter (fun r => pdEq (cellOf r.2 "id") ticket_id)).map
        Prod.fst
    if !idx_to_update.isEmpty then
      (updated_data.foldl (fun acc kv => locSet acc idx_to_update kv.1 kv.2)
        df, true)
    else
      (df, false)

/-- `handle_delete_ticket` (lines 139–153). -/
def handle_delete_ticket (df : DataFrame) (ticket_id : Value) :
    DataFrame × Bool :=
  if !df.cols.contains "id" then
    (df, false)
  else
    let kept := df.rows.filter (fun r => !pdEq (cellOf r.2 "id") ticket_id)
    (⟨df.cols, (kept.map Prod.snd).enum⟩, kept.length < df.rows.length)

/-! ### The chat-completion wrapper `get_ai_response`

The function appears byte-for-byte identically in `1_Cyber Security.py`
(lines 393–456) and `1_IT.py` (lines 381–444); it is embedded once.
The network is abstracted as a stream of per-attempt outcomes: the POST
plus `raise_for_status()` either yields a parsed JSON body, raises an
HTTP error (the `response` local then bound, with a status code), or the
POST itself raises (the `response` local then not rebound).  `time.sleep`
is recorded in a list of waited durations; a result of `.error ()` means
an exception escapes the function (Python's `UnboundLocalError` when the
handler reads a never-bound `response`). -/

/-- A JSON value, as `response.json()` parses one. -/
inductive JVal where
  | nul : JVal
  | str : String → JVal
  | list : List JVal → JVal
  | obj : List (String × JVal) → JVal

/-- Python dict `.get(key, dflt)`: the first binding of the key, or the
default; calling `.get` on a non-dict raises. -/
def jget (v : JVal) (key : String) (dflt : JVal) : Except Unit JVal :=
  match v with
  | .obj fields =>
    match fields.find? (fun kv => kv.1 == key) with
    | some kv => .ok kv.2
    | none => .ok dflt
  | _ => .error ()

/-- Python `x[0]` on the choices value: head of a non-empty list;
an empty list raises `IndexError`, a non-list raises as well (directly
or at the `.get` that follows). -/
def jindex0 (v : JVal) : Except Unit JVal :=
  match v with
  | .list (x :: _) => .ok x
  | _ => .error ()

/-- `result.get('choices', [{}])[0].get('message', {}).get('content')`. -/
def extractContent (result : JVal) : Except Unit JVal :=
  match jget result "choices" (.list [.obj []]) with
  | .error e => .error e
  | .ok choices =>
    match jindex0 choices with
    | .error e => .error e
    | .ok first =>
      match jget first "message" (.obj []) with
      | .error e => .error e
      | .ok msg => jget msg "content" .nul

/-- Python truthiness of the extracted value (`if generated_text`). -/
def truthy (v : JVal) : Bool :=
  match v with
  | .nul => false
  | .str s => s ≠ ""
  | .list l => !l.isEmpty
  | .obj fields => !fields.isEmpty

/-- The fallback returned when the content field is absent or empty. -/
def fallbackMsg : String :=
  "I couldn't generate a clear response for that request."

/-- Returned when a status-401 response is seen in the handler. -/
def authErrMsg : String :=
  "Authentication Error: The API Key is invalid or expired. Please check your key."

/-- Returned after the last retry fails. -/
def failMsg : String :=
  "Failed to get a response after several tries. Check your connection or API status."

/-- Returned by the generic `except Exception` handler. -/
def internalErrMsg : String := "An internal error occurred."

/-- The try-block tail on an HTTP success: the extraction, its raised
exceptions (e.g. `IndexError` on an empty `choices` list) landing in the
`except Exception` handler, and the truthiness fallback. -/
def successReturn (result : JVal) : JVal :=
  match extractContent result with
  | .error () => .str internalErrMsg
  | .ok t => if truthy t then t else .str fallbackMsg

/-- One attempt's outcome, as the abstraction of
`requests.post(...)` followed by `response.raise_for_status()`. -/
inductive Outcome where
  | success : JVal → Outcome
  | httpErr : Nat → Outcome
  | connErr : Outcome

/-- What a call to the wrapper did: its return value (`.error ()` = an
exception escaped), the sleeps performed, and the attempts made. -/
structure RunResult where
  result : Except Unit JVal
  sleeps : List Nat
  attempts : Nat

def MAX_RETRIES : Nat := 3

/-- The `for attempt in range(MAX_RETRIES)` loop of `get_ai_response`.
`lastStatus` is the status of the last response the `response` local was
bound to (`none` before the first binding); `fuel` counts the loop
iterations left and `sleeps` accumulates waits in reverse. -/
def runAttempts (outcomes : Nat → Outcome) (lastStatus : Option Nat)
    (attempt fuel : Nat) (sleeps : List Nat) : RunResult :=
  match fuel with
  | 0 => ⟨.ok .nul, sleeps.reverse, attempt⟩
  | f + 1 =>
    match outcomes attempt with
    | .success body => ⟨.ok (successReturn body), sleeps.reverse, attempt + 1⟩
    | .httpErr s =>
      if s = 401 then
        ⟨.ok (.str authErrMsg), sleeps.reverse, attempt + 1⟩
      else if attempt < MAX_RETRIES - 1 then
        runAttempts outcomes (some s) (attempt + 1) f (2 ^ attempt :: sleeps)
      else
        ⟨.ok (.str failMsg), sleeps.reverse, attempt + 1⟩
    | .connErr =>
      match lastStatus with
      | none => ⟨.error (), sleeps.reverse, attempt + 1⟩
      | some s =>
        if s = 401 then
          ⟨.ok (.str authErrMsg), sleeps.reverse, attempt + 1⟩
        else if attempt < MAX_RETRIES - 1 then
          runAttempts outcomes (some s) (attempt + 1) f (2 ^ attempt :: sleeps)
        else
          ⟨.ok (.str failMsg), sleeps.reverse, attempt + 1⟩

/-- `get_ai_response`, retry part (lines 423–456 of the cyber page). -/
def get_ai_response (outcomes : Nat → Outcome) : RunResult :=
  runAttempts outcomes none 0 MAX_RETRIES []

/-- A chat message as kept in `st.session_state.messages`. -/
structure ChatMsg where
  role : String
  content : String
deriving DecidableEq

def SYSTEM_INSTRUCTION : String := "You are a Data Science Specialist"

/-- The `messages` list of the payload (lines 397–420): the fixed system
message, each history message with role and content copied, then the
user prompt. -/
def buildMessages (prompt : String) (history : List ChatMsg) : List ChatMsg :=
  ⟨"system", SYSTEM_INSTRUCTION⟩ ::
    (history.map (fun msg => ⟨msg.role, msg.content⟩) ++ [⟨"user", prompt⟩])

/-! ### `DATA/generate_tickets.py`: `generate_it_tickets_csv`

The random stream is abstracted as `stream : Nat → Nat`, one natural per
draw, consumed left to right exactly in the order the Python consumes
`random`: `random.choice(l)` picks index `r % len(l)` and
`random.randint(a, b)` yields `a + r % (b - a + 1)` — every value either
can produce is produced by some stream, and none other.  Each ticket
consumes 12 draws.  The written timestamp is modelled as the offset in
seconds from `start_date = 2024-01-01 00:00:00` (its `strftime`
rendering is injective on this range, so nothing is lost). -/

/-- `ticket_types` of `generate_it_tickets_csv`. -/
def ticket_types : List String :=
  ["hardware",
   "software",
   "network",
   "email",
   "access",
   "security",
   "backup",
   "database"]

/-- `severity_levels` of `generate_it_tickets_csv`. -/
def severity_levels : List String :=
  ["Low",
   "Medium",
   "High"]

/-- `status_options` of `generate_it_tickets_csv`. -/
def status_options : List String :=
  ["Open",
   "In Progress",
   "Closed",
   "Resolved"]

/-- `domains` of `generate_it_tickets_csv`. -/
def domains : List String :=
  ["company.com",
   "enterprise.org",
   "business.net",
   "corp.io",
   "tech.org"]

/-- `departments` of `generate_it_tickets_csv`. -/
def departments : List String :=
  ["sales",
   "marketing",
   "engineering",
   "finance",
   "hr",
   "operations",
   "support",
   "research"]

/-- `first_names` of `generate_it_tickets_csv`. -/
def first_names : List String :=
  ["john",
   "jane",
   "mike",
   "sarah",
   "david",
   "lisa",
   "robert",
   "emily",
   "chris",
   "amanda",
   "james",
   "michelle",
   "steven",
   "rebecca",
   "kevin",
   "jennifer",
   "thomas",
   "natalie",
   "eric",
   "susan"]

/-- `last_names` of `generate_it_tickets_csv`. -/
def last_names : List String :=
  ["smith",
   "johnson",
   "williams",
   "brown",
   "jones",
   "miller",
   "davis",
   "garcia",
   "rodriguez",
   "wilson",
   "martinez",
   "anderson",
   "taylor",
   "thomas",
   "moore",
   "jackson",
   "white",
   "harris"]

/-- The `descriptions` dict of `generate_it_tickets_csv`, keyed by ticket
type (an unlisted key gives `[]`; the drawn type is always listed). -/
def descriptions (t : String) : List String :=
  match t with
  | "hardware" =>
    ["Laptop overheating and shutting down randomly during presentations",
     "Desktop computer not powering on - no lights or sounds",
     "Monitor displaying distorted colors and flickering lines",
     "Keyboard keys not responding consistently during typing",
     "Printer paper jam error despite clear paper path",
     "Server disk space critically low at 98% capacity",
     "Workstation blue screen errors occurring multiple times daily",
     "Laptop battery not holding charge, lasts only 15 minutes",
     "Docking station not recognizing external monitors",
     "Server hardware failure detected in RAID controller"]
  | "software" =>
    ["Application crashing on startup with memory access violation",
     "Software license activation failed - invalid license key",
     "Program running extremely slow when processing large files",
     "Update installation stuck at 50% for over 2 hours",
     "Compatibility issues with new operating system update",
     "Plugin not loading correctly in design application",
     "Software freezing during use, requires force quit",
     "Installation package corrupted during download",
     "Application throwing database connection errors",
     "Software configuration reset after system reboot"]
  | "network" =>
    ["Intermittent internet connectivity in entire north building",
     "VPN connection timeout issues for remote team members",
     "WiFi signal weak in third floor conference room",
     "Network drive inaccessible with permission denied errors",
     "Slow file transfer speeds between departments",
     "DNS resolution failures for internal applications",
     "Port configuration required for new security system",
     "Network latency spikes during peak business hours",
     "Switch port malfunctioning in server room rack 4B",
     "Wireless access point firmware needs urgent update"]
  | "email" =>
    ["Outlook not syncing with Exchange server - connection timeout",
     "Legitimate emails being marked as spam by filter system",
     "Large attachments failing to send with size limit errors",
     "Calendar sync failed between mobile and desktop clients",
     "Email rules not executing automatically as configured",
     "Global address list not updating with new employees",
     "Email search functionality returning incomplete results",
     "Automatic replies not triggering during scheduled times",
     "Email client crashing when opening specific messages",
     "Signature formatting broken after recent update"]
  | "access" =>
    ["New employee needs access to project management software",
     "User account locked due to multiple failed login attempts",
     "Folder permissions need updating for quarterly project",
     "Database access required for financial reporting team",
     "VPN credentials not working for overseas contractor",
     "Application-specific roles need configuration",
     "Terminated employee access revocation incomplete",
     "Shared mailbox permissions need review and cleanup",
     "Multi-factor authentication device replacement needed",
     "Security group membership requires quarterly audit"]
  | "security" =>
    ["Critical Windows security patches need immediate deployment",
     "Firewall rules blocking legitimate application traffic",
     "Antivirus detection of potential malware in shared drive",
     "Security audit reveals compliance violations in user accounts",
     "Intrusion detection system generating false positives",
     "Password policy enforcement not working for service accounts",
     "Security certificate expiring for customer portal",
     "Data encryption required for sensitive client information",
     "Access logs showing suspicious login patterns",
     "Security training completion tracking implementation"]
  | "backup" =>
    ["Nightly backup failed due to insufficient storage space",
     "Backup verification process taking longer than expected",
     "Cloud backup synchronization stalled at 80% complete",
     "Backup restore test failed for critical database",
     "Backup retention policy needs configuration review",
     "Tape drive hardware failure in backup system",
     "Backup encryption key rotation required per policy",
     "Backup job scheduling conflict with maintenance window",
     "Incremental backup corruption detected during verification",
     "Backup storage capacity planning for next quarter"]
  | "database" =>
    ["Database performance degradation during peak hours",
     "SQL query timeout errors in reporting application",
     "Database connection pool exhaustion under load",
     "Index fragmentation causing slow query performance",
     "Database backup verification failed checksum test",
     "Table space running low, requires immediate attention",
     "Database replication lag between primary and secondary",
     "Stored procedure optimization needed for billing system",
     "Database log file growth exceeding allocated space",
     "Database version upgrade planning and testing"]
  | _ => []

/-- The `data_fields` dict of `generate_it_tickets_csv`, keyed by ticket
type (an unlisted key gives `[]`; the drawn type is always listed). -/
def data_fields (t : String) : List String :=
  match t with
  | "hardware" =>
    ["Performance metrics",
     "Hardware diagnostics",
     "System logs",
     "Temperature readings",
     "Power consumption data"]
  | "software" =>
    ["Application logs",
     "Installation records",
     "Error reports",
     "Performance analytics",
     "Usage statistics"]
  | "network" =>
    ["Connectivity logs",
     "Packet capture data",
     "Network statistics",
     "Bandwidth usage",
     "Latency measurements"]
  | "email" =>
    ["Configuration data",
     "SMTP logs",
     "Mail queue data",
     "Spam filter results",
     "Delivery reports"]
  | "access" =>
    ["Audit logs",
     "Permission records",
     "Access control lists",
     "Login attempts",
     "Security group data"]
  | "security" =>
    ["Security logs",
     "Firewall rules",
     "Threat detection data",
     "Virus scan results",
     "Compliance reports"]
  | "backup" =>
    ["Backup logs",
     "Verification reports",
     "Storage metrics",
     "Recovery test results",
     "Capacity planning data"]
  | "database" =>
    ["Query performance",
     "Backup records",
     "Connection logs",
     "Table statistics",
     "Index usage data"]
  | _ => []

/-- `random.choice(l)`: an element at a stream-chosen index. -/
def rchoice (l : List String) (r : Nat) : String :=
  l.getD (r % l.length) ""

/-- `random.randint(a, b)`: a stream-chosen integer in `[a, b]`. -/
def randint (a b r : Nat) : Nat :=
  a + r % (b - a + 1)

/-- One CSV record of `it_tickets_1000.csv`, fields in column order;
`created_at` is seconds after 2024-01-01 00:00:00. -/
structure Ticket where
  id : Nat
  data : String
  tickets_type : String
  severity : String
  status : String
  description : String
  reported_by : String
  created_at : Nat
deriving DecidableEq

/-- The header row written first (line 134). -/
def csvHeader : List String :=
  ["id", "data", "tickets_type", "severity", "status", "description",
   "reported_by", "created_at"]

/-- The loop body for one `ticket_id` (lines 138–171); `base` is the
position of its first draw in the stream. -/
def makeTicket (stream : Nat → Nat) (ticket_id : Nat) : Ticket :=
  let base := 12 * (ticket_id - 1)
  let ticket_type := rchoice ticket_types (stream base)
  let severity := rchoice severity_levels (stream (base + 1))
  let status := rchoice status_options (stream (base + 2))
  let description := rchoice (descriptions ticket_type) (stream (base + 3))
  let first_name := rchoice first_names (stream (base + 4))
  let last_name := rchoice last_names (stream (base + 5))
  let department := rchoice departments (stream (base + 6))
  let domain := rchoice domains (stream (base + 7))
  let reporter :=
    first_name ++ "." ++ last_name ++ "." ++ department ++ "@" ++ domain
  let data_field := rchoice (data_fields ticket_type) (stream (base + 8))
  let days_ago := randint 0 90 (stream (base + 9))
  let hours_ago := randint 0 23 (stream (base + 10))
  let minutes_ago := randint 0 59 (stream (base + 11))
  let created_at := ((days_ago * 24 + hours_ago) * 60 + minutes_ago) * 60
  ⟨ticket_id, data_field, ticket_type, severity, status, description,
   reporter, created_at⟩

/-- `generate_it_tickets_csv` (lines 5–175): the header row and the 1000
data records for `ticket_id in range(1, 1001)`. -/
def generate_it_tickets_csv (stream : Nat → Nat) : List String × List Ticket :=
  (csvHeader, (List.range 1000).map (fun k => makeTicket stream (k + 1)))

/-! ### Library lemmas about the model primitives -/

/-- Filtering a mapped list = mapping the filtered list. -/
theorem filter_map_eq {α β : Type} (l : List α) (f : α → β) (p : β → Bool) :
    (l.map f).filter p = (l.filter (fun x => p (f x))).map f := by
  induction l with
  | nil => rfl
  | cons a l ih => by_cases h : p (f a) <;> simp [h, ih]

/-- Pandas `==` against a non-NaN string is plain equality. -/
theorem pdEq_str (a : Value) (s : String) : pdEq a (.str s) = (a == .str s) := by
  cases a <;> rfl

/-- `cellOf` on nil. -/
theorem cellOf_nil (c : String) : cellOf [] c = .nan := rfl

/-- `cellOf` on a cons. -/
theorem cellOf_cons (kv : String × Value) (r : Row) (c : String) :
    cellOf (kv :: r) c = if kv.1 == c then kv.2 else cellOf r c := by
  simp only [cellOf, List.find?]
  by_cases h : kv.1 == c <;> simp [h]

/-- Overwriting the occurrences of column `c` in place: the other
columns read unchanged. -/
theorem cellOf_overwrite_ne (r : Row) (c c' : String) (v : Value)
    (h : c' ≠ c) :
    cellOf (r.map (fun kv => if kv.1 == c then (c, v) else kv)) c'
      = cellOf r c' := by
  have hcc : ¬ c = c' := fun hcc => h hcc.symm
  induction r with
  | nil => rfl
  | cons kv r ih =>
    by_cases hk : kv.1 = c
    · simpa [List.map_cons, cellOf_cons, hk, hcc] using ih
    · by_cases h3 : kv.1 = c'
      · simp [List.map_cons, cellOf_cons, hk, h3, h]
      · simpa [List.map_cons, cellOf_cons, hk, h3] using ih

/-- Overwriting the occurrences of column `c` in place: `c` itself reads
the new value, provided an occurrence exists. -/
theorem cellOf_overwrite_self (r : Row) (c : String) (v : Value)
    (ha : r.any (fun kv => kv.1 == c) = true) :
    cellOf (r.map (fun kv => if kv.1 == c then (c, v) else kv)) c = v := by
  induction r with
  | nil => simp at ha
  | cons kv r ih =>
    by_cases hk : kv.1 = c
    · simp [List.map_cons, cellOf_cons, hk]
    · have ha' : (r.any fun kv => kv.1 == c) = true := by
        simp only [List.any_cons, Bool.or_eq_true, beq_iff_eq] at ha
        rcases ha with h1 | h2
        · exact absurd h1 hk
        · simpa using h2
      simpa [List.map_cons, cellOf_cons, hk] using ih ha'

/-- Appending a binding for a fresh column: the other columns read
unchanged. -/
theorem cellOf_append_ne (r : Row) (c c' : String) (v : Value)
    (h : c' ≠ c) :
    cellOf (r ++ [(c, v)]) c' = cellOf r c' := by
  have hcc : ¬ c = c' := fun hcc => h hcc.symm
  induction r with
  | nil => simp [cellOf_cons, cellOf_nil, hcc]
  | cons kv r ih =>
    by_cases h3 : kv.1 = c'
    · simp [List.cons_append, cellOf_cons, h3]
    · simpa [List.cons_append, cellOf_cons, h3] using ih

/-- Reading back the freshly written cell. -/
theorem cellOf_rowSet_self (r : Row) (c : String) (v : Value) :
    cellOf (rowSet r c v) c = v := by
  unfold rowSet
  by_cases ha : r.any (fun kv => kv.1 == c)
  · simp only [ha, if_true]
    exact cellOf_overwrite_self r c v ha
  · simp only [ha, if_false]
    induction r with
    | nil => simp [cellOf_cons]
    | cons kv r ih =>
      simp only [List.any_cons, Bool.or_eq_true, not_or] at ha
      have hk : ¬ kv.1 = c := by simpa using ha.1
      have tail := ih (by simpa using ha.2)
      simpa [List.cons_append, cellOf_cons, hk] using tail

/-- Writing one cell leaves the others unchanged. -/
theorem cellOf_rowSet_ne (r : Row) (c c' : String) (v : Value) (h : c' ≠ c) :
    cellOf (rowSet r c v) c' = cellOf r c' := by
  unfold rowSet
  by_cases ha : r.any (fun kv => kv.1 == c)
  · simp only [ha, if_true]
    exact cellOf_overwrite_ne r c c' v h
  · simp only [ha, if_false]
    exact cellOf_append_ne r c c' v h

/-- Columns not named in the payload are untouched by the fold of
row writes. -/
theorem cellOf_foldl_rowSet_not_mem (upd : List (String × Value)) (r : Row)
    (c : String) (h : ∀ kv ∈ upd, kv.1 ≠ c) :
    cellOf (upd.foldl (fun r kv => rowSet r kv.1 kv.2) r) c = cellOf r c := by
  induction upd generalizing r with
  | nil => rfl
  | cons kv upd ih =>
    rw [List.foldl_cons, ih _ (fun x hx => h x (List.mem_cons_of_mem _ hx))]
    exact cellOf_rowSet_ne _ _ _ _ fun hc =>
      h kv (List.mem_cons_self _ _) hc.symm

/-- After the fold of row writes, each payload key (keys unique, as in a
Python dict) reads its payload value. -/
theorem cellOf_foldl_rowSet_mem (upd : List (String × Value)) (r : Row)
    (hnd : (upd.map Prod.fst).Nodup) :
    ∀ kv ∈ upd, cellOf (upd.foldl (fun r kv => rowSet r kv.1 kv.2) r) kv.1
      = kv.2 := by
  induction upd generalizing r with
  | nil => intro kv h; cases h
  | cons kv0 upd ih =>
    intro kv hkv
    have hnd' := hnd
    simp only [List.map_cons, List.nodup_cons] at hnd'
    rcases List.mem_cons.mp hkv with rfl | hmem
    · rw [List.foldl_cons,
        cellOf_foldl_rowSet_not_mem upd _ kv.1
          (fun x hx hc => hnd'.1 (hc ▸ List.mem_map_of_mem Prod.fst hx)),
        cellOf_rowSet_self]
    · rw [List.foldl_cons]
      exact ih _ hnd'.2 kv hmem

/-- The fold of `.loc` writes maps every row independently: rows at a
targeted label get the fold of row writes, the others stay. -/
theorem foldl_locSet_rows (upd : List (String × Value)) (idx : List Nat)
    (df : DataFrame) :
    (upd.foldl (fun acc kv => locSet acc idx kv.1 kv.2) df).rows
      = df.rows.map (fun lr =>
          if idx.contains lr.1 then
            (lr.1, upd.foldl (fun r kv => rowSet r kv.1 kv.2) lr.2)
          else lr) := by
  induction upd generalizing df with
  | nil =>
    have h : ∀ lr : Nat × Row,
        (if idx.contains lr.1 then (lr.1, lr.2) else lr) = lr := by
      intro lr; split <;> rfl
    simp [h]
  | cons kv upd ih =>
    rw [List.foldl_cons, ih]
    simp only [locSet, List.map_map]
    congr 1
    funext lr
    by_cases hc : lr.1 ∈ idx <;> simp [hc, List.foldl_cons]

/-- In a list with nodup labels, two members with the same label are the
same member. -/
theorem eq_of_fst_eq_of_nodup {l : List (Nat × Row)}
    (h : (l.map Prod.fst).Nodup) {a b : Nat × Row}
    (ha : a ∈ l) (hb : b ∈ l) (hf : a.1 = b.1) : a = b :=
  List.inj_on_of_nodup_map h ha hb hf

/-! ### Claim theorems -/

/-- **C3.** For every DataFrame containing an `'id'` column, the delete
operation with a given id produces exactly the rows whose id differs
from the given id (NaN ids compare unequal, hence are kept), in their
original relative order with the index renumbered from 0; it reports
success iff at least one row was removed, and in the error case the row
contents are unchanged. -/
theorem delete_incident_spec (df : DataFrame) (incident_id : Value)
    (h : df.cols.contains "id" = true) :
    (handle_delete_incident df incident_id).1.cols = df.cols
    ∧ (handle_delete_incident df incident_id).1.rows.map Prod.snd
        = (df.rows.map Prod.snd).filter
            (fun r => !pdEq (cellOf r "id") incident_id)
    ∧ (handle_delete_incident df incident_id).1.rows.map Prod.fst
        = List.range (handle_delete_incident df incident_id).1.rows.length
    ∧ ((handle_delete_incident df incident_id).2 = true
        ↔ ∃ r ∈ df.rows, pdEq (cellOf r.2 "id") incident_id = true)
    ∧ ((handle_delete_incident df incident_id).2 = false
        → (handle_delete_incident df incident_id).1.rows.map Prod.snd
            = df.rows.map Prod.snd) := by
  have hval : handle_delete_incident df incident_id
      = (⟨df.cols,
          ((df.rows.filter
            (fun r => !pdEq (cellOf r.2 "id") incident_id)).map Prod.snd).enum⟩,
         decide ((df.rows.filter
            (fun r => !pdEq (cellOf r.2 "id") incident_id)).length
           < df.rows.length)) := by
    have h' : "id" ∈ df.cols := by simpa using h
    simp [handle_delete_incident, h']
  refine ⟨by rw [hval], ?_, ?_, ?_, ?_⟩
  · rw [hval, filter_map_eq]
    simp [List.enum_map_snd]
  · rw [hval]
    simp [List.enum_map_fst, List.enum_length]
  · rw [hval]
    simp only [decide_eq_true_eq]
    rw [List.length_filter_lt_length_iff_exists]
    constructor
    · rintro ⟨r, hr, hp⟩
      exact ⟨r, hr, by simpa using hp⟩
    · rintro ⟨r, hr, hp⟩
      exact ⟨r, hr, by simpa using hp⟩
  · intro h5
    rw [hval] at h5 ⊢
    simp only [decide_eq_false_iff_not, not_lt] at h5
    have hle := List.length_filter_le
      (fun r => !pdEq (cellOf r.2 "id") incident_id) df.rows
    have hfull : (df.rows.filter
        (fun r => !pdEq (cellOf r.2 "id") incident_id)) = df.rows := by
      exact (List.filter_sublist _).eq_of_length (by omega)
    simp [hfull, List.enum_map_snd]

/-- Concrete run of `delete_incident_spec`: a two-row frame, deleting
id 1 keeps exactly the id-2 row, renumbered, and reports success. -/
theorem delete_incident_spec_witness :
    (⟨["id"], [(0, [("id", Value.int 1)]), (1, [("id", Value.int 2)])]⟩ :
        DataFrame).cols.contains "id" = true
    ∧ ((handle_delete_incident
          ⟨["id"], [(0, [("id", Value.int 1)]), (1, [("id", Value.int 2)])]⟩
          (Value.int 1)).1.cols
        = (⟨["id"], [(0, [("id", Value.int 1)]), (1, [("id", Value.int 2)])]⟩ :
            DataFrame).cols
      ∧ (handle_delete_incident
          ⟨["id"], [(0, [("id", Value.int 1)]), (1, [("id", Value.int 2)])]⟩
          (Value.int 1)).1.rows.map Prod.snd
        = ((⟨["id"], [(0, [("id", Value.int 1)]), (1, [("id", Value.int 2)])]⟩ :
            DataFrame).rows.map Prod.snd).filter
            (fun r => !pdEq (cellOf r "id") (Value.int 1))
      ∧ (handle_delete_incident
          ⟨["id"], [(0, [("id", Value.int 1)]), (1, [("id", Value.int 2)])]⟩
          (Value.int 1)).1.rows.map Prod.fst
        = List.range (handle_delete_incident
            ⟨["id"], [(0, [("id", Value.int 1)]), (1, [("id", Value.int 2)])]⟩
            (Value.int 1)).1.rows.length
      ∧ ((handle_delete_incident
          ⟨["id"], [(0, [("id", Value.int 1)]), (1, [("id", Value.int 2)])]⟩
          (Value.int 1)).2 = true
        ↔ ∃ r ∈ (⟨["id"],
            [(0, [("id", Value.int 1)]), (1, [("id", Value.int 2)])]⟩ :
              DataFrame).rows,
            pdEq (cellOf r.2 "id") (Value.int 1) = true)
      ∧ ((handle_delete_incident
          ⟨["id"], [(0, [("id", Value.int 1)]), (1, [("id", Value.int 2)])]⟩
          (Value.int 1)).2 = false
        → (handle_delete_incident
            ⟨["id"], [(0, [("id", Value.int 1)]), (1, [("id", Value.int 2)])]⟩
            (Value.int 1)).1.rows.map Prod.snd
          = (⟨["id"],
              [(0, [("id", Value.int 1)]), (1, [("id", Value.int 2)])]⟩ :
                DataFrame).rows.map Prod.snd)) :=
  ⟨by decide, delete_incident_spec _ _ (by decide)⟩

/-- **C6.** Whenever the dashboard displays its metrics (every non-empty
frame), the total equals the number of rows, the open count equals the
number of rows whose `'status'` cell equals `'Open'` (0 when the
`'status'` column is missing), and the critical count equals the number
of rows whose `'severity'` cell equals `'Critical'` (0 when the
`'severity'` column is missing). -/
theorem display_dashboard_spec (df : DataFrame) (m : Nat × Nat × Nat)
    (h : display_dashboard df = some m) :
    m.1 = df.rows.length
    ∧ m.2.1 = (if df.cols.contains "status" then
        (df.rows.map Prod.snd).countP
          (fun r => cellOf r "status" == Value.str "Open") else 0)
    ∧ m.2.2 = (if df.cols.contains "severity" then
        (df.rows.map Prod.snd).countP
          (fun r => cellOf r "severity" == Value.str "Critical") else 0) := by
  have hfun : ∀ c s : String,
      (fun r : Nat × Row => pdEq (cellOf r.2 c) (.str s))
        = (fun r : Nat × Row => cellOf r.2 c == .str s) := by
    intro c s
    funext r
    rw [pdEq_str]
  by_cases he : df.rows.isEmpty
  · simp [display_dashboard, he] at h
  · rw [display_dashboard, if_neg (by simp [he])] at h
    have hm := (Option.some_inj.mp h).symm
    subst hm
    refine ⟨rfl, ?_, ?_⟩
    · simp only [List.countP_map]
      split
      · rw [List.countP_eq_length_filter, Function.comp_def, ← hfun]
      · rfl
    · simp only [List.countP_map]
      split
      · rw [List.countP_eq_length_filter, Function.comp_def, ← hfun]
      · rfl

/-- Concrete run of `display_dashboard_spec`: a two-row frame with one
open row and no `'severity'` column gives metrics (2, 1, 0). -/
theorem display_dashboard_spec_witness :
    display_dashboard
        ⟨["status"], [(0, [("status", Value.str "Open")]), (1, [])]⟩
      = some (2, 1, 0)
    ∧ ((2, 1, 0) : Nat × Nat × Nat).1
        = (⟨["status"], [(0, [("status", Value.str "Open")]), (1, [])]⟩ :
            DataFrame).rows.length
    ∧ ((2, 1, 0) : Nat × Nat × Nat).2.1
        = (if (⟨["status"], [(0, [("status", Value.str "Open")]), (1, [])]⟩ :
              DataFrame).cols.contains "status" then
            ((⟨["status"], [(0, [("status", Value.str "Open")]), (1, [])]⟩ :
              DataFrame).rows.map Prod.snd).countP
              (fun r => cellOf r "status" == Value.str "Open") else 0)
    ∧ ((2, 1, 0) : Nat × Nat × Nat).2.2
        = (if (⟨["status"], [(0, [("status", Value.str "Open")]), (1, [])]⟩ :
              DataFrame).cols.contains "severity" then
            ((⟨["status"], [(0, [("status", Value.str "Open")]), (1, [])]⟩ :
              DataFrame).rows.map Prod.snd).countP
              (fun r => cellOf r "severity" == Value.str "Critical") else 0) :=
  ⟨by decide,
   display_dashboard_spec
     ⟨["status"], [(0, [("status", Value.str "Open")]), (1, [])]⟩
     (2, 1, 0) (by decide)⟩

/-- **C2.** The update operation reports an error iff the frame lacks an
`'id'` column or no row has the given id, and in every error case the
stored frame is completely unchanged; when at least one row matches,
success is reported, exactly the matching rows have the supplied keys
overwritten with the supplied values, and the other rows are untouched.
(Keys of the payload are unique, as in a Python dict; the frames the app
builds always carry a duplicate-free positional index.) -/
theorem update_incident_spec (df : DataFrame) (incident_id : Value)
    (upd : List (String × Value)) :
    ((handle_update_incident df incident_id upd).2 = false ↔
      df.cols.contains "id" = false
      ∨ ∀ r ∈ df.rows, pdEq (cellOf r.2 "id") incident_id = false)
    ∧ ((handle_update_incident df incident_id upd).2 = false →
        (handle_update_incident df incident_id upd).1 = df)
    ∧ ((upd.map Prod.fst).Nodup → (df.rows.map Prod.fst).Nodup →
        (handle_update_incident df incident_id upd).2 = true →
        (handle_update_incident df incident_id upd).1.rows.length
          = df.rows.length
        ∧ ∀ (i : Nat) (lr : Nat × Row), df.rows[i]? = some lr →
            ∃ r', (handle_update_incident df incident_id upd).1.rows[i]?
                = some (lr.1, r')
              ∧ (pdEq (cellOf lr.2 "id") incident_id = true →
                  ∀ kv ∈ upd, cellOf r' kv.1 = kv.2)
              ∧ (pdEq (cellOf lr.2 "id") incident_id = false →
                  r' = lr.2)) := by
  by_cases hid : df.cols.contains "id"
  · have hid' : "id" ∈ df.cols := by simpa using hid
    by_cases hFE : ((df.rows.filter
        (fun r => pdEq (cellOf r.2 "id") incident_id)).map Prod.fst).isEmpty
    · have hval : handle_update_incident df incident_id upd = (df, false) := by
        simp only [handle_update_incident, hid, Bool.not_true,
          Bool.false_eq_true, if_false, hFE, Bool.not_false, if_true]
      have hnone : ∀ r ∈ df.rows,
          pdEq (cellOf r.2 "id") incident_id = false := by
        intro r hr
        have : (df.rows.filter
            (fun r => pdEq (cellOf r.2 "id") incident_id)) = [] := by
          simpa using hFE
        have := List.filter_eq_nil_iff.mp this r hr
        simpa using this
      refine ⟨?_, fun _ => by rw [hval], ?_⟩
      · rw [hval]
        simp only [true_iff]
        exact Or.inr hnone
      · intro _ _ htrue
        rw [hval] at htrue
        simp at htrue
    · have hne : (df.rows.filter
          (fun r => pdEq (cellOf r.2 "id") incident_id)) ≠ [] := by
        intro hnil
        apply hFE
        simp [hnil]
      obtain ⟨lr0, hlr0⟩ := List.exists_mem_of_ne_nil _ hne
      have hFE' : ((df.rows.filter
          (fun r => pdEq (cellOf r.2 "id") incident_id)).map
            Prod.fst).isEmpty = false := by
        rw [Bool.eq_false_iff]
        exact hFE
      have hval : handle_update_incident df incident_id upd
          = (upd.foldl (fun acc kv => locSet acc
              ((df.rows.filter
                (fun r => pdEq (cellOf r.2 "id") incident_id)).map Prod.fst)
              kv.1 kv.2) df, true) := by
        simp only [handle_update_incident, hid, Bool.not_true,
          Bool.false_eq_true, if_false, hFE', Bool.not_false, if_true]
      have hmem0 := List.mem_filter.mp hlr0
      refine ⟨?_, ?_, ?_⟩
      · rw [hval]
        simp only [Bool.true_eq_false, false_iff, not_or]
        refine ⟨by simp only [hid, Bool.true_eq_false, not_false_eq_true], ?_⟩
        intro hall
        have := hall lr0 hmem0.1
        rw [hmem0.2] at this
        exact Bool.true_eq_false ▸ this
      · intro hfalse
        rw [hval] at hfalse
        simp at hfalse
      · intro hnd hlab _
        rw [hval, foldl_locSet_rows]
        refine ⟨by simp, ?_⟩
        intro i lr hi
        have hmemrow : lr ∈ df.rows := List.getElem?_mem hi
        rw [List.getElem?_map, hi, Option.map_some']
        by_cases hm : pdEq (cellOf lr.2 "id") incident_id = true
        · have hin : lr.1 ∈ (df.rows.filter
              (fun r => pdEq (cellOf r.2 "id") incident_id)).map Prod.fst :=
            List.mem_map_of_mem Prod.fst
              (List.mem_filter.mpr ⟨hmemrow, hm⟩)
          refine ⟨upd.foldl (fun r kv => rowSet r kv.1 kv.2) lr.2, ?_, ?_, ?_⟩
          · simp [hin]
          · intro _ kv hkv
            exact cellOf_foldl_rowSet_mem upd lr.2 hnd kv hkv
          · intro hfalse
            rw [hm] at hfalse
            exact absurd hfalse (by simp)
        · have hnot : lr.1 ∉ (df.rows.filter
              (fun r => pdEq (cellOf r.2 "id") incident_id)).map Prod.fst := by
            intro hinmap
            rcases List.mem_map.mp hinmap with ⟨lr', hlr', hfst⟩
            have hmem' := List.mem_filter.mp hlr'
            have : lr' = lr :=
              eq_of_fst_eq_of_nodup hlab hmem'.1 hmemrow hfst
            rw [this] at hmem'
            exact hm hmem'.2
          refine ⟨lr.2, ?_, ?_, fun _ => rfl⟩
          · simp [hnot]
          · intro htrue
            exact absurd htrue hm
  · have hval : handle_update_incident df incident_id upd = (df, false) := by
      simp only [handle_update_incident, hid, Bool.not_false, if_true]
    refine ⟨?_, fun _ => by rw [hval], ?_⟩
    · rw [hval]
      simp only [true_iff]
      exact Or.inl (by simpa using hid)
    · intro _ _ htrue
      rw [hval] at htrue
      simp at htrue

/-- Concrete run of `update_incident_spec`: updating id 1 in a one-row
frame reports success, and its error characterisation holds there. -/
theorem update_incident_spec_witness :
    ((handle_update_incident
        ⟨["id", "status"], [(0, [("id", Value.int 1), ("status", Value.str "Open")])]⟩
        (Value.int 1) [("status", Value.str "Closed")]).2 = false ↔
      (⟨["id", "status"],
        [(0, [("id", Value.int 1), ("status", Value.str "Open")])]⟩ :
          DataFrame).cols.contains "id" = false
      ∨ ∀ r ∈ (⟨["id", "status"],
          [(0, [("id", Value.int 1), ("status", Value.str "Open")])]⟩ :
            DataFrame).rows,
          pdEq (cellOf r.2 "id") (Value.int 1) = false)
    ∧ ((handle_update_incident
        ⟨["id", "status"], [(0, [("id", Value.int 1), ("status", Value.str "Open")])]⟩
        (Value.int 1) [("status", Value.str "Closed")]).2 = false →
      (handle_update_incident
        ⟨["id", "status"], [(0, [("id", Value.int 1), ("status", Value.str "Open")])]⟩
        (Value.int 1) [("status", Value.str "Closed")]).1
        = ⟨["id", "status"],
            [(0, [("id", Value.int 1), ("status", Value.str "Open")])]⟩) :=
  ⟨(update_incident_spec _ _ _).1, (update_incident_spec _ _ _).2.1⟩

/-- **C1, counterexample.**  On the empty frame the incidents page's add
assigns the fallback id 1000 where the datasets page's add assigns 1:
the two produce different frames from identical input, beyond the
session-state key. -/
theorem add_fallback_id_counterexample :
    handle_add_incident ⟨[], []⟩ ⟨"t", "Low"⟩ 0
      = Except.ok ⟨["id", "title", "severity", "status", "timestamp"],
          [(0, [("id", Value.int 1000), ("title", Value.str "t"),
                ("severity", Value.str "Low"), ("status", Value.str "Open"),
                ("timestamp", Value.time 0)])]⟩
    ∧ handle_add_dataset ⟨[], []⟩ ⟨"t", "Low"⟩ 0
      = Except.ok ⟨["id", "title", "severity", "status", "timestamp"],
          [(0, [("id", Value.int 1), ("title", Value.str "t"),
                ("severity", Value.str "Low"), ("status", Value.str "Open"),
                ("timestamp", Value.time 0)])]⟩
    ∧ (⟨["id", "title", "severity", "status", "timestamp"],
          [(0, [("id", Value.int 1000), ("title", Value.str "t"),
                ("severity", Value.str "Low"), ("status", Value.str "Open"),
                ("timestamp", Value.time 0)])]⟩ : DataFrame)
      ≠ ⟨["id", "title", "severity", "status", "timestamp"],
          [(0, [("id", Value.int 1), ("title", Value.str "t"),
                ("severity", Value.str "Low"), ("status", Value.str "Open"),
                ("timestamp", Value.time 0)])]⟩ :=
  ⟨rfl, rfl, by decide⟩

/-- **C1, amended.**  The get-row, update, and delete helpers are
behaviourally identical across the three pages (beyond the session-state
key they touch), the incidents and tickets add helpers are identical,
and the datasets add helper agrees with them on every frame that is
non-empty and has an `'id'` column; on the remaining frames the datasets
page assigns fallback id 1 where the other two assign 1000. -/
theorem crud_pages_equivalent :
    (∀ (df : DataFrame) (i : Option Value),
        get_incident_row df i = get_dataset_row df i
        ∧ get_incident_row df i = get_ticket_row df i)
    ∧ (∀ (df : DataFrame) (v : Value) (upd : List (String × Value)),
        handle_update_incident df v upd = handle_update_dataset df v upd
        ∧ handle_update_incident df v upd = handle_update_ticket df v upd)
    ∧ (∀ (df : DataFrame) (v : Value),
        handle_delete_incident df v = handle_delete_dataset df v
        ∧ handle_delete_incident df v = handle_delete_ticket df v)
    ∧ (∀ (df : DataFrame) (d : NewData) (now : Nat),
        handle_add_incident df d now = handle_add_ticket df d now)
    ∧ (∀ (df : DataFrame) (d : NewData) (now : Nat),
        df.rows.isEmpty = false → df.cols.contains "id" = true →
        handle_add_incident df d now = handle_add_dataset df d now) :=
  ⟨fun _ _ => ⟨rfl, rfl⟩, fun _ _ _ => ⟨rfl, rfl⟩, fun _ _ => ⟨rfl, rfl⟩,
   fun _ _ _ => rfl,
   fun df d now hne hidc => by
     have hid' : "id" ∈ df.cols := by simpa using hidc
     simp [handle_add_incident, handle_add_dataset, hne, hid']⟩

/-- Concrete run of `crud_pages_equivalent`: on a one-row frame with an
`'id'` column, the incidents and datasets add helpers agree. -/
theorem crud_pages_equivalent_witness :
    (⟨["id"], [(0, [("id", Value.int 1)])]⟩ : DataFrame).rows.isEmpty = false
    ∧ (⟨["id"], [(0, [("id", Value.int 1)])]⟩ :
        DataFrame).cols.contains "id" = true
    ∧ handle_add_incident ⟨["id"], [(0, [("id", Value.int 1)])]⟩
        ⟨"t", "Low"⟩ 0
      = handle_add_dataset ⟨["id"], [(0, [("id", Value.int 1)])]⟩
        ⟨"t", "Low"⟩ 0 :=
  ⟨rfl, rfl, crud_pages_equivalent.2.2.2.2 _ _ _ rfl rfl⟩

/-- **C4, counterexample.**  `get_incident_row` has no missing-column
guard: on a frame without an `'id'` column and a non-None id it raises
`KeyError` (modelled `.error ()`) instead of taking an error branch. -/
theorem get_row_missing_column_counterexample :
    get_incident_row ⟨["title"], [(0, [("title", Value.str "x")])]⟩
      (some (Value.int 5)) = .error () := rfl

/-- **C4, amended.**  The add, update, and delete helpers each guard the
missing-`'id'` case: on a frame without an `'id'` column, add falls back
to the default id and succeeds, update and delete take their explicit
error branch with the frame unchanged, and none of the three raises;
get-row, by contrast, raises exactly when the requested id is not None
and the `'id'` column is absent (its callers guard that case with
`can_manage`). -/
theorem crud_missing_id_guard :
    (∀ (df : DataFrame) (i : Option Value),
        (∃ e, get_incident_row df i = .error e)
          ↔ (i.isSome = true ∧ df.cols.contains "id" = false))
    ∧ (∀ (df : DataFrame) (d : NewData) (now : Nat),
        df.cols.contains "id" = false →
          ∃ df', handle_add_incident df d now = .ok df')
    ∧ (∀ (df : DataFrame) (v : Value) (upd : List (String × Value)),
        df.cols.contains "id" = false →
          handle_update_incident df v upd = (df, false))
    ∧ (∀ (df : DataFrame) (v : Value),
        df.cols.contains "id" = false →
          handle_delete_incident df v = (df, false)) := by
  refine ⟨?_, ?_, ?_, ?_⟩
  · intro df i
    match i with
    | none =>
      constructor
      · rintro ⟨e, he⟩
        simp [get_incident_row] at he
      · rintro ⟨hs, _⟩
        simp at hs
    | some v =>
      by_cases hc : df.cols.contains "id"
      · have hc' : "id" ∈ df.cols := by simpa using hc
        constructor
        · rintro ⟨e, he⟩
          simp [get_incident_row, hc'] at he
        · rintro ⟨_, hcf⟩
          rw [hc] at hcf
          exact absurd hcf (by simp)
      · have hcf : df.cols.contains "id" = false := by
          rw [Bool.eq_false_iff]
          exact hc
        have hm : "id" ∉ df.cols := by simpa using hcf
        constructor
        · intro _
          exact ⟨rfl, hcf⟩
        · intro _
          exact ⟨(), by simp [get_incident_row, hm]⟩
  · intro df d now hcf
    have hm : "id" ∉ df.cols := by simpa using hcf
    refine ⟨⟨unionCols ["id", "title", "severity", "status", "timestamp"]
        df.cols,
      ([("id", Value.int 1000), ("title", .str d.title),
        ("severity", .str d.severity), ("status", .str "Open"),
        ("timestamp", .time now)] :: df.rows.map Prod.snd).enum⟩, ?_⟩
    simp only [handle_add_incident, Bool.and_eq_true]
    rw [if_neg (by simp [hcf]; intro _; exact hm)]
  · intro df v upd hcf
    have hm : "id" ∉ df.cols := by simpa using hcf
    simp [handle_update_incident, hm]
  · intro df v hcf
    have hm : "id" ∉ df.cols := by simpa using hcf
    simp [handle_delete_incident, hm]

/-- Concrete run of `crud_missing_id_guard`: on an id-less frame, update
and delete take their error branch and leave the frame unchanged. -/
theorem crud_missing_id_guard_witness :
    (⟨["title"], []⟩ : DataFrame).cols.contains "id" = false
    ∧ handle_update_incident ⟨["title"], []⟩ (Value.int 1) []
        = (⟨["title"], []⟩, false)
    ∧ handle_delete_incident ⟨["title"], []⟩ (Value.int 1)
        = (⟨["title"], []⟩, false) :=
  ⟨rfl, crud_missing_id_guard.2.2.1 _ _ _ rfl,
   crud_missing_id_guard.2.2.2 _ _ rfl⟩

/-- Reading a column across an enumerated row list ignores the labels. -/
theorem map_cellOf_enum (l : List Row) (c : String) :
    l.enum.map (fun x => cellOf x.2 c) = l.map (fun r => cellOf r c) := by
  rw [show (fun x : Nat × Row => cellOf x.2 c)
      = (fun r => cellOf r c) ∘ Prod.snd from rfl,
    ← List.map_map, List.enum_map_snd]

/-- **C9.** The add operation changes no existing data: whenever it
returns, the previously existing rows appear unchanged, in their
previous order, shifted down by one position, and the single new row
stands at position 0 with label 0, its `'status'` cell `'Open'` and its
`'title'` and `'severity'` cells taken from the submitted data. -/
theorem add_incident_frame (df : DataFrame) (d : NewData) (now : Nat)
    (df' : DataFrame) (h : handle_add_incident df d now = .ok df') :
    ∃ idv,
      df'.rows.map Prod.snd
        = [("id", idv), ("title", Value.str d.title),
           ("severity", Value.str d.severity), ("status", Value.str "Open"),
           ("timestamp", Value.time now)] :: df.rows.map Prod.snd
      ∧ df'.rows.map Prod.fst = List.range (df.rows.length + 1)
      ∧ ∃ r0 : Row, df'.rows[0]? = some (0, r0)
          ∧ cellOf r0 "status" = Value.str "Open"
          ∧ cellOf r0 "title" = Value.str d.title
          ∧ cellOf r0 "severity" = Value.str d.severity := by
  unfold handle_add_incident at h
  rcases hE : (if !df.rows.isEmpty && df.cols.contains "id" then
      match seriesMax (idsOf df) with
      | .error e => .error e
      | .ok m => valuePlusOne m
    else Except.ok (Value.int 1000)) with e | idv
  · rw [hE] at h
    simp at h
  · rw [hE] at h
    simp only [Except.ok.injEq] at h
    subst h
    refine ⟨idv, ?_, ?_, [("id", idv), ("title", Value.str d.title),
      ("severity", Value.str d.severity), ("status", Value.str "Open"),
      ("timestamp", Value.time now)], ?_, ?_, ?_, ?_⟩
    · simp [List.enum_map_snd]
    · simp [List.enum_map_fst, List.enum_length]
    · simp [List.enum_cons]
    · simp [cellOf_cons]
    · simp [cellOf_cons]
    · simp [cellOf_cons]

/-- Concrete run of `add_incident_frame`: adding to the empty frame
yields the single new row at position 0 with the submitted data. -/
theorem add_incident_frame_witness :
    handle_add_incident ⟨[], []⟩ ⟨"t", "Low"⟩ 0
      = Except.ok ⟨["id", "title", "severity", "status", "timestamp"],
          [(0, [("id", Value.int 1000), ("title", Value.str "t"),
                ("severity", Value.str "Low"), ("status", Value.str "Open"),
                ("timestamp", Value.time 0)])]⟩
    ∧ ∃ idv,
        (⟨["id", "title", "severity", "status", "timestamp"],
          [(0, [("id", Value.int 1000), ("title", Value.str "t"),
                ("severity", Value.str "Low"), ("status", Value.str "Open"),
                ("timestamp", Value.time 0)])]⟩ : DataFrame).rows.map Prod.snd
          = [("id", idv), ("title", Value.str "t"),
             ("severity", Value.str "Low"), ("status", Value.str "Open"),
             ("timestamp", Value.time 0)]
            :: (⟨[], []⟩ : DataFrame).rows.map Prod.snd
        ∧ (⟨["id", "title", "severity", "status", "timestamp"],
            [(0, [("id", Value.int 1000), ("title", Value.str "t"),
                  ("severity", Value.str "Low"), ("status", Value.str "Open"),
                  ("timestamp", Value.time 0)])]⟩ : DataFrame).rows.map
              Prod.fst
          = List.range ((⟨[], []⟩ : DataFrame).rows.length + 1)
        ∧ ∃ r0 : Row,
            (⟨["id", "title", "severity", "status", "timestamp"],
              [(0, [("id", Value.int 1000), ("title", Value.str "t"),
                    ("severity", Value.str "Low"), ("status", Value.str "Open"),
                    ("timestamp", Value.time 0)])]⟩ : DataFrame).rows[0]?
              = some (0, r0)
            ∧ cellOf r0 "status" = Value.str "Open"
            ∧ cellOf r0 "title" = Value.str "t"
            ∧ cellOf r0 "severity" = Value.str "Low" :=
  ⟨rfl, add_incident_frame ⟨[], []⟩ ⟨"t", "Low"⟩ 0 _ rfl⟩

/-- Python's fold of pairwise max over an all-integer tail: the result
is an integer bounding the start and every element, and is itself the
start or one of the elements. -/
theorem foldlM_valueMaxPair_int (rest : List Value) (a : Int)
    (hint : ∀ v ∈ rest, ∃ n : Int, v = .int n) :
    ∃ M : Int, rest.foldlM valueMaxPair (Value.int a) = .ok (.int M)
      ∧ a ≤ M ∧ (∀ n : Int, Value.int n ∈ rest → n ≤ M)
      ∧ (M = a ∨ Value.int M ∈ rest) := by
  induction rest generalizing a with
  | nil => exact ⟨a, rfl, le_refl a, by simp, Or.inl rfl⟩
  | cons v rest ih =>
    obtain ⟨b, rfl⟩ := hint v (List.mem_cons_self _ _)
    obtain ⟨M, hM, haM, hall, hatt⟩ :=
      ih (max a b) (fun x hx => hint x (List.mem_cons_of_mem _ hx))
    refine ⟨M, ?_, le_trans (le_max_left a b) haM, ?_, ?_⟩
    · rw [List.foldlM_cons]
      simpa [valueMaxPair] using hM
    · intro n hn
      rcases List.mem_cons.mp hn with heq | hmem
      · have hb : n = b := by
          injection heq
        exact hb ▸ le_trans (le_max_right a b) haM
      · exact hall n hmem
    · rcases hatt with hM' | hmem
      · rcases max_cases a b with ⟨hm, _⟩ | ⟨hm, _⟩
        · exact Or.inl (hM'.trans hm)
        · refine Or.inr ?_
          rw [hM', hm]
          exact List.mem_cons_self _ _
      · exact Or.inr (List.mem_cons_of_mem _ hmem)

/-- `Series.max` on a non-empty all-integer series: the integer maximum,
an upper bound of every entry and itself one of the entries. -/
theorem seriesMax_int (vs : List Value) (hne : vs ≠ [])
    (hint : ∀ v ∈ vs, ∃ n : Int, v = .int n) :
    ∃ M : Int, seriesMax vs = .ok (.int M)
      ∧ (∀ n : Int, Value.int n ∈ vs → n ≤ M)
      ∧ Value.int M ∈ vs := by
  have hfilter : vs.filter (fun v => v != .nan) = vs := by
    apply List.filter_eq_self.mpr
    intro v hv
    obtain ⟨n, rfl⟩ := hint v hv
    simp
  rcases vs with _ | ⟨v, rest⟩
  · exact absurd rfl hne
  · obtain ⟨a, rfl⟩ := hint v (List.mem_cons_self _ _)
    obtain ⟨M, hM, haM, hall, hatt⟩ := foldlM_valueMaxPair_int rest a
      (fun x hx => hint x (List.mem_cons_of_mem _ hx))
    refine ⟨M, ?_, ?_, ?_⟩
    · rw [seriesMax, hfilter]
      exact hM
    · intro n hn
      rcases List.mem_cons.mp hn with heq | hmem
      · have hb : n = a := by
          injection heq
        exact hb ▸ haM
      · exact hall n hmem
    · rcases hatt with rfl | hmem
      · exact List.mem_cons_self _ _
      · exact List.mem_cons_of_mem _ hmem

/-- An update whose payload does not name the key `'id'` leaves the id
column unchanged. -/
theorem update_ids_unchanged (df : DataFrame) (v : Value)
    (upd : List (String × Value)) (hnid : ∀ kv ∈ upd, kv.1 ≠ "id") :
    idsOf (handle_update_incident df v upd).1 = idsOf df := by
  by_cases hid : df.cols.contains "id"
  · by_cases hFE : ((df.rows.filter
        (fun r => pdEq (cellOf r.2 "id") v)).map Prod.fst).isEmpty
    · have hval : handle_update_incident df v upd = (df, false) := by
        simp only [handle_update_incident, hid, Bool.not_true,
          Bool.false_eq_true, if_false, hFE, Bool.not_false, if_true]
      rw [hval]
    · have hFE' : ((df.rows.filter
          (fun r => pdEq (cellOf r.2 "id") v)).map Prod.fst).isEmpty
            = false := by
        rw [Bool.eq_false_iff]
        exact hFE
      have hval : handle_update_incident df v upd
          = (upd.foldl (fun acc kv => locSet acc
              ((df.rows.filter
                (fun r => pdEq (cellOf r.2 "id") v)).map Prod.fst)
              kv.1 kv.2) df, true) := by
        simp only [handle_update_incident, hid, Bool.not_true,
          Bool.false_eq_true, if_false, hFE', Bool.not_false, if_true]
      rw [hval]
      unfold idsOf
      rw [foldl_locSet_rows, List.map_map]
      apply List.map_congr_left
      intro lr _
      by_cases hc : lr.1 ∈ (df.rows.filter
          (fun r => pdEq (cellOf r.2 "id") v)).map Prod.fst
      · have hcb : (List.map Prod.fst (List.filter
            (fun r => pdEq (cellOf r.2 "id") v) df.rows)).contains lr.1
              = true := by
          simpa using hc
        simp only [Function.comp_apply, hcb, if_true]
        exact cellOf_foldl_rowSet_not_mem upd lr.2 "id" hnid
      · simp [hc]
  · have hm : "id" ∉ df.cols := by simpa using hid
    simp [handle_update_incident, hm]

/-- **C8, counterexample.** A non-empty frame with an `'id'` column and
pairwise-distinct ids on which add does not insert a greater id: with
ids `1` and `"a"`, `df['id'].max()` raises `TypeError` (int/str
comparison), so `handle_add_incident` raises and inserts nothing. -/
theorem add_distinct_ids_crash_counterexample :
    (idsOf ⟨["id"],
        [(0, [("id", Value.int 1)]), (1, [("id", Value.str "a")])]⟩).Nodup
    ∧ handle_add_incident
        ⟨["id"], [(0, [("id", Value.int 1)]), (1, [("id", Value.str "a")])]⟩
        ⟨"t", "Low"⟩ 0 = .error () :=
  ⟨by decide, rfl⟩

/-- At the int64 boundary the source wraps rather than grows: with the
pairwise-distinct int64 ids `-2^63` and `2^63 - 1`, `df['id'].max() + 1`
overflows `np.int64` and add inserts the wrapped id `-2^63` — a
duplicate that is not greater than the existing ids.  This is the
second way the unrestricted claim fails, and why the amended invariant
keeps every id below `2^63 - 1`. -/
theorem add_id_overflow_wraps :
    (idsOf ⟨["id"], [(0, [("id", Value.int (-9223372036854775808))]),
                     (1, [("id", Value.int 9223372036854775807)])]⟩).Nodup
    ∧ handle_add_incident
        ⟨["id"], [(0, [("id", Value.int (-9223372036854775808))]),
                  (1, [("id", Value.int 9223372036854775807)])]⟩
        ⟨"t", "Low"⟩ 0
      = .ok ⟨["id", "title", "severity", "status", "timestamp"],
          [(0, [("id", Value.int (-9223372036854775808)),
                ("title", Value.str "t"), ("severity", Value.str "Low"),
                ("status", Value.str "Open"), ("timestamp", Value.time 0)]),
           (1, [("id", Value.int (-9223372036854775808))]),
           (2, [("id", Value.int 9223372036854775807)])]⟩ :=
  ⟨by decide, rfl⟩

/-- In-range int64 values are fixed by the wrap. -/
theorem wrap64_eq_self (m : Int) (hlo : -(2 ^ 63) ≤ m) (hhi : m < 2 ^ 63) :
    wrap64 m = m := by
  unfold wrap64
  have e1 : (2 : Int) ^ 63 = 9223372036854775808 := by norm_num
  have e2 : (2 : Int) ^ 64 = 18446744073709551616 := by norm_num
  rw [e1, e2]
  rw [e1] at hlo
  rw [e1] at hhi
  rw [Int.emod_eq_of_lt (by omega) (by omega)]
  omega

/-- **C8, amended.** On every non-empty frame with an `'id'` column
whose ids are pairwise-distinct *int64 integers, none of them the
maximal int64 value `2^63 - 1`* (so that `max() + 1` does not
overflow): add inserts a row whose id is the integer maximum of the
existing ids plus one, strictly greater than every existing id, and
add, delete, and update (with a payload not naming `'id'`) each
preserve pairwise distinctness of the ids.  Without the restrictions
the claim fails twice over: non-numeric ids make `max() + 1` raise
(the counterexample), and at the int64 boundary the sum wraps to a
duplicate id (`add_id_overflow_wraps`). -/
theorem ids_unique_invariant (df : DataFrame) (d : NewData) (now : Nat)
    (h1 : df.rows ≠ []) (h2 : df.cols.contains "id" = true)
    (h3 : ∀ v ∈ idsOf df, ∃ n : Int, v = Value.int n
            ∧ -(2 ^ 63) ≤ n ∧ n < 2 ^ 63 - 1)
    (h4 : (idsOf df).Nodup) :
    (∃ (df' : DataFrame) (M : Int),
        handle_add_incident df d now = .ok df'
        ∧ seriesMax (idsOf df) = .ok (.int M)
        ∧ idsOf df' = Value.int (M + 1) :: idsOf df
        ∧ (∀ n : Int, Value.int n ∈ idsOf df → n < M + 1)
        ∧ (idsOf df').Nodup)
    ∧ (∀ v : Value, (idsOf (handle_delete_incident df v).1).Nodup)
    ∧ (∀ (v : Value) (upd : List (String × Value)),
        (∀ kv ∈ upd, kv.1 ≠ "id") →
        (idsOf (handle_update_incident df v upd).1).Nodup) := by
  have h3' : ∀ v ∈ idsOf df, ∃ n : Int, v = Value.int n :=
    fun v hv => ((h3 v hv).imp (fun n hn => hn.1))
  have hne : idsOf df ≠ [] := by
    unfold idsOf
    intro hmap
    exact h1 (List.map_eq_nil_iff.mp hmap)
  obtain ⟨M, hM, hbound, hMem⟩ := seriesMax_int _ hne h3'
  obtain ⟨nM, hnM, hMlo, hMhi⟩ := h3 _ hMem
  have hinj : M = nM := by injection hnM
  rw [← hinj] at hMlo hMhi
  have hw : wrap64 (M + 1) = M + 1 :=
    wrap64_eq_self _ (by linarith) (by linarith)
  refine ⟨?_, ?_, ?_⟩
  · have hguard : (!df.rows.isEmpty && df.cols.contains "id") = true := by
      rw [h2]
      simp [List.isEmpty_iff, h1]
    have hval : handle_add_incident df d now = .ok
        ⟨unionCols ["id", "title", "severity", "status", "timestamp"] df.cols,
         ([("id", Value.int (wrap64 (M + 1))), ("title", .str d.title),
           ("severity", .str d.severity), ("status", .str "Open"),
           ("timestamp", .time now)] :: df.rows.map Prod.snd).enum⟩ := by
      unfold handle_add_incident
      rw [if_pos hguard, hM]
      rfl
    rw [hw] at hval
    have hids : idsOf
        ⟨unionCols ["id", "title", "severity", "status", "timestamp"] df.cols,
         ([("id", Value.int (M + 1)), ("title", .str d.title),
           ("severity", .str d.severity), ("status", .str "Open"),
           ("timestamp", .time now)] :: df.rows.map Prod.snd).enum⟩
        = Value.int (M + 1) :: idsOf df := by
      unfold idsOf
      dsimp only
      rw [map_cellOf_enum]
      simp only [List.map_cons, List.map_map]
      constructor
    refine ⟨_, M, hval, hM, hids, ?_, ?_⟩
    · intro n hn
      exact Int.lt_add_one_iff.mpr (hbound n hn)
    · rw [hids]
      refine List.nodup_cons.mpr ⟨?_, h4⟩
      intro hmem
      have := hbound (M + 1) hmem
      omega
  · intro v
    have h' : "id" ∈ df.cols := by simpa using h2
    have hval : (handle_delete_incident df v).1
        = ⟨df.cols,
           ((df.rows.filter
             (fun r => !pdEq (cellOf r.2 "id") v)).map Prod.snd).enum⟩ := by
      simp [handle_delete_incident, h']
    rw [hval]
    unfold idsOf
    dsimp only
    rw [map_cellOf_enum, List.map_map]
    exact List.Nodup.sublist
      (List.Sublist.map _ (List.filter_sublist df.rows)) h4
  · intro v upd hnid
    rw [update_ids_unchanged df v upd hnid]
    exact h4

/-- Concrete run of `ids_unique_invariant` on a one-row frame with id 1:
add inserts id 2 and all three operations keep the ids distinct. -/
theorem ids_unique_invariant_witness :
    ((⟨["id"], [(0, [("id", Value.int 1)])]⟩ : DataFrame).rows ≠ [])
    ∧ ((∃ (df' : DataFrame) (M : Int),
          handle_add_incident ⟨["id"], [(0, [("id", Value.int 1)])]⟩
            ⟨"t", "Low"⟩ 0 = .ok df'
          ∧ seriesMax (idsOf ⟨["id"], [(0, [("id", Value.int 1)])]⟩)
            = .ok (.int M)
          ∧ idsOf df' = Value.int (M + 1)
              :: idsOf ⟨["id"], [(0, [("id", Value.int 1)])]⟩
          ∧ (∀ n : Int,
              Value.int n ∈ idsOf ⟨["id"], [(0, [("id", Value.int 1)])]⟩ →
              n < M + 1)
          ∧ (idsOf df').Nodup)
        ∧ (∀ v : Value,
            (idsOf (handle_delete_incident
              ⟨["id"], [(0, [("id", Value.int 1)])]⟩ v).1).Nodup)
        ∧ (∀ (v : Value) (upd : List (String × Value)),
            (∀ kv ∈ upd, kv.1 ≠ "id") →
            (idsOf (handle_update_incident
              ⟨["id"], [(0, [("id", Value.int 1)])]⟩ v upd).1).Nodup)) :=
  ⟨by decide,
   ids_unique_invariant ⟨["id"], [(0, [("id", Value.int 1)])]⟩
     ⟨"t", "Low"⟩ 0 (by decide) rfl
     (by
       intro v hv
       simp only [idsOf, List.map_cons, List.map_nil, List.mem_singleton]
         at hv
       exact ⟨1, by rw [hv]; rfl, by norm_num, by norm_num⟩)
     (by decide)⟩

/-- The loop makes at most `attempt + fuel` numbered attempts. -/
theorem runAttempts_attempts_le (f : Nat → Outcome) :
    ∀ (fuel : Nat) (last : Option Nat) (attempt : Nat) (sleeps : List Nat),
      (runAttempts f last attempt fuel sleeps).attempts ≤ attempt + fuel := by
  intro fuel
  induction fuel with
  | zero =>
    intro last attempt sleeps
    simp [runAttempts]
  | succ n ih =>
    intro last attempt sleeps
    simp only [runAttempts]
    cases hf : f attempt with
    | success b => simp
    | httpErr s =>
      by_cases h4 : s = 401
      · simp [h4]
      · by_cases hlt : attempt < MAX_RETRIES - 1
        · simp only [h4, if_false, hlt, if_true]
          have := ih (some s) (attempt + 1) (2 ^ attempt :: sleeps)
          omega
        · simp only [h4, if_false, hlt, if_false]
          simp
    | connErr =>
      cases last with
      | none => simp
      | some s =>
        by_cases h4 : s = 401
        · simp [h4]
        · by_cases hlt : attempt < MAX_RETRIES - 1
          · simp only [h4, if_false, hlt, if_true]
            have := ih (some s) (attempt + 1) (2 ^ attempt :: sleeps)
            omega
          · simp only [h4, if_false, hlt, if_false]
            simp

/-- **C5, counterexample.** With every attempt failing with HTTP status
401, the wrapper returns the authentication message after a single
attempt with no backoff sleep, where the claim prescribes 3 attempts,
sleeps of 1 and 2 seconds and the generic failure message. -/
theorem retry_401_counterexample :
    get_ai_response (fun _ => .httpErr 401)
      = ⟨.ok (.str authErrMsg), [], 1⟩
    ∧ authErrMsg ≠ failMsg :=
  ⟨rfl, by decide⟩

/-- **C5, amended.** The wrapper makes at most `MAX_RETRIES = 3`
attempts; when every attempt fails with a non-401 HTTP status it sleeps
`2 ^ attempt` seconds (1 s, then 2 s) after each failed attempt except
the last and finally returns the failure message; a 401 response aborts
immediately with the authentication message and no sleep; a success on
the first or second attempt returns the extracted content with the
sleeps of the preceding failures only; and a connection failure of the
first POST (no response bound yet) propagates an exception instead of
returning. -/
theorem retry_loop_spec :
    (∀ f : Nat → Outcome, (get_ai_response f).attempts ≤ MAX_RETRIES)
    ∧ (∀ f : Nat → Outcome,
        (∀ i, i < MAX_RETRIES → ∃ s, f i = .httpErr s ∧ s ≠ 401) →
        get_ai_response f = ⟨.ok (.str failMsg), [1, 2], 3⟩)
    ∧ (∀ f : Nat → Outcome, f 0 = .httpErr 401 →
        get_ai_response f = ⟨.ok (.str authErrMsg), [], 1⟩)
    ∧ (∀ (f : Nat → Outcome) (b : JVal), f 0 = .success b →
        get_ai_response f = ⟨.ok (successReturn b), [], 1⟩)
    ∧ (∀ (f : Nat → Outcome) (s : Nat) (b : JVal),
        f 0 = .httpErr s → s ≠ 401 → f 1 = .success b →
        get_ai_response f = ⟨.ok (successReturn b), [1], 2⟩)
    ∧ (∀ f : Nat → Outcome, f 0 = .connErr →
        get_ai_response f = ⟨.error (), [], 1⟩) := by
  refine ⟨?_, ?_, ?_, ?_, ?_, ?_⟩
  · intro f
    exact runAttempts_attempts_le f MAX_RETRIES none 0 []
  · intro f hf
    obtain ⟨s0, h0, h0n⟩ := hf 0 (by norm_num [MAX_RETRIES])
    obtain ⟨s1, h1, h1n⟩ := hf 1 (by norm_num [MAX_RETRIES])
    obtain ⟨s2, h2, h2n⟩ := hf 2 (by norm_num [MAX_RETRIES])
    simp [get_ai_response, runAttempts, MAX_RETRIES, h0, h1, h2,
      h0n, h1n, h2n]
  · intro f h0
    simp [get_ai_response, runAttempts, h0]
  · intro f b h0
    simp [get_ai_response, runAttempts, h0]
  · intro f s b h0 h0n h1
    simp [get_ai_response, runAttempts, MAX_RETRIES, h0, h0n, h1]
  · intro f h0
    simp [get_ai_response, runAttempts, h0]

/-- Concrete run of `retry_loop_spec`: three straight HTTP-500 failures
give the failure message after sleeps of 1 and 2 seconds. -/
theorem retry_loop_spec_witness :
    get_ai_response (fun _ => .httpErr 500)
      = ⟨.ok (.str failMsg), [1, 2], 3⟩ :=
  retry_loop_spec.2.1 _ (fun _ _ => ⟨500, rfl, by decide⟩)

/-- **C7, counterexample.** When the response carries `choices` as an
*empty* list (so `choices[0].message.content` is absent), the wrapper
does not substitute the fixed fallback string: the subscript raises
`IndexError` and the generic handler returns the internal-error message
instead. -/
theorem empty_choices_counterexample :
    successReturn (.obj [("choices", .list [])]) = .str internalErrMsg
    ∧ internalErrMsg ≠ fallbackMsg :=
  ⟨rfl, by decide⟩

/-- **C7, amended.** The payload is exactly the fixed system message,
the history in order with role and content copied unchanged, then one
user message with the prompt.  On an HTTP success with `choices` a
non-empty list, the wrapper returns `choices[0].message.content` when
that string is non-empty and the fixed fallback when it is empty or the
`choices`, `message` or `content` field is absent; when `choices` is
present but an empty list the lookup raises and the internal-error
message is returned instead (the counterexample). -/
theorem payload_and_extraction_spec :
    (∀ (prompt : String) (history : List ChatMsg),
        buildMessages prompt history
          = ⟨"system", SYSTEM_INSTRUCTION⟩
              :: (history ++ [⟨"user", prompt⟩]))
    ∧ (∀ (s : String) (rest : List JVal) (more : List (String × JVal)),
        successReturn (.obj (("choices",
            .list (.obj [("message", .obj [("content", .str s)])] :: rest))
              :: more))
          = if s = "" then .str fallbackMsg else .str s)
    ∧ successReturn (.obj []) = .str fallbackMsg
    ∧ (∀ rest : List JVal,
        successReturn (.obj [("choices", .list (.obj [] :: rest))])
          = .str fallbackMsg)
    ∧ (∀ rest : List JVal,
        successReturn (.obj [("choices",
            .list (.obj [("message", .obj [])] :: rest))])
          = .str fallbackMsg) := by
  refine ⟨?_, ?_, rfl, ?_, ?_⟩
  · intro prompt history
    simp [buildMessages]
  · intro s rest more
    by_cases hs : s = ""
    · simp [successReturn, extractContent, jget, jindex0, truthy, hs]
    · simp [successReturn, extractContent, jget, jindex0, truthy, hs]
  · intro rest
    simp [successReturn, extractContent, jget, jindex0, truthy]
  · intro rest
    simp [successReturn, extractContent, jget, jindex0, truthy]

/-- Concrete run of `payload_and_extraction_spec`: a one-message history
is embedded between the system message and the user prompt, and a
well-formed response body yields its content string. -/
theorem payload_and_extraction_spec_witness :
    buildMessages "hi" [⟨"assistant", "hello"⟩]
      = ⟨"system", SYSTEM_INSTRUCTION⟩
          :: ([⟨"assistant", "hello"⟩] ++ [⟨"user", "hi"⟩]) :=
  payload_and_extraction_spec.1 "hi" [⟨"assistant", "hello"⟩]

/-- `random.choice` over a non-empty list yields an element of it. -/
theorem rchoice_mem (l : List String) (r : Nat) (h : l ≠ []) :
    rchoice l r ∈ l := by
  unfold rchoice
  have hlen : 0 < l.length := List.length_pos.mpr h
  have hm : r % l.length < l.length := Nat.mod_lt _ hlen
  rw [List.getD_eq_getElem l "" hm]
  exact List.getElem_mem hm

/-- **C10.** For every random stream, `generate_it_tickets_csv` writes
the 8-column header and exactly 1000 data rows whose `id` fields are
1 through 1000 in ascending order, each severity drawn from
Low/Medium/High, each status from Open/In Progress/Closed/Resolved,
and each `created_at` between 2024-01-01 00:00:00 and that plus 90 days,
23 hours and 59 minutes inclusive (`created_at` is modelled as seconds
after the start date). -/
theorem generate_tickets_spec (stream : Nat → Nat) :
    (generate_it_tickets_csv stream).1
      = ["id", "data", "tickets_type", "severity", "status", "description",
         "reported_by", "created_at"]
    ∧ (generate_it_tickets_csv stream).2.length = 1000
    ∧ ∀ k, k < 1000 →
        ∃ t : Ticket, (generate_it_tickets_csv stream).2[k]? = some t
          ∧ t.id = k + 1
          ∧ t.severity ∈ (["Low", "Medium", "High"] : List String)
          ∧ t.status ∈ (["Open", "In Progress", "Closed", "Resolved"] :
              List String)
          ∧ t.created_at ≤ ((90 * 24 + 23) * 60 + 59) * 60 := by
  refine ⟨rfl, by simp [generate_it_tickets_csv], ?_⟩
  intro k hk
  refine ⟨makeTicket stream (k + 1), ?_, rfl, ?_, ?_, ?_⟩
  · simp [generate_it_tickets_csv, List.getElem?_map,
      List.getElem?_range hk]
  · have hm := rchoice_mem severity_levels
      (stream (12 * (k + 1 - 1) + 1)) (by decide)
    simpa [makeTicket, severity_levels] using hm
  · have hm := rchoice_mem status_options
      (stream (12 * (k + 1 - 1) + 2)) (by decide)
    simpa [makeTicket, status_options] using hm
  · simp only [makeTicket, randint]
    omega

/-- Concrete run of `generate_tickets_spec`: the first row of the
all-zeros stream has id 1 and in-range fields. -/
theorem generate_tickets_spec_witness :
    (0 : Nat) < 1000
    ∧ ∃ t : Ticket, (generate_it_tickets_csv (fun _ => 0)).2[0]? = some t
        ∧ t.id = 0 + 1
        ∧ t.severity ∈ (["Low", "Medium", "High"] : List String)
        ∧ t.status ∈ (["Open", "In Progress", "Closed", "Resolved"] :
            List String)
        ∧ t.created_at ≤ ((90 * 24 + 23) * 60 + 59) * 60 :=
  ⟨by decide, (generate_tickets_spec (fun _ => 0)).2.2 0 (by decide)⟩
